import Mathlib

/-!
Verification of the multi-vehicle routing core of the shelter-dispatch app
(src/main.py, function solve_vrp and the session state it updates).

Shallow embedding choices:
* Coordinates (Python floats) are modelled as exact rationals; the geometric
  distance (shapely Point.distance, planar Euclidean) is the real square root
  of the rational squared distance.
* The integer distance matrix truncates dist * 100000 to an integer
  (Python int() on a non-negative float = floor).
* The routing backend (Google OR-Tools RoutingModel with a single depot,
  every node mandatory) is an external library; it is modelled by its
  documented contract, definition Valid below: a returned assignment has one
  route per vehicle, every non-depot node appears in exactly one route exactly
  once, and ObjectiveValue is the sum of traversed arc costs plus the fixed
  cost (here 1000, from SetFixedCostOfAllVehicles) of every vehicle whose
  route is non-empty (serves at least one node besides start and end).
* Streamlit session state is the record SessionState; solve_vrp takes the
  prior state and the solver outcome (Option VrpSolution) and returns the new
  state together with whether the warning banner was emitted.
-/

/-- A location: (latitude, longitude) as exact rationals. -/
abbrev Loc : Type := ℚ × ℚ

/-- Squared planar Euclidean distance between two locations. -/
def sqDist (a b : Loc) : ℚ := (a.1 - b.1) ^ 2 + (a.2 - b.2) ^ 2

/-- shapely Point(a).distance(Point(b)): planar Euclidean distance. -/
noncomputable def point_distance (a b : Loc) : ℝ := Real.sqrt ((sqDist a b : ℚ) : ℝ)

/-- Entry (i, j) of the distance matrix built in solve_vrp:
0 on the diagonal (the numpy zeros initialisation), otherwise
int(Point(locations[i]).distance(Point(locations[j])) * 100000). -/
noncomputable def distance_matrix (locations : List Loc) (i j : ℕ) : ℤ :=
  if i = j then 0
  else ⌊point_distance (locations.getD i (0, 0)) (locations.getD j (0, 0)) * 100000⌋

/-- The routing backend's assignment: for each vehicle, the ordered list of
non-depot node indices it visits (the depot, node 0, is implicit at both
ends of every route). -/
structure VrpSolution where
  routes : List (List ℕ)

/-- Contract of the OR-Tools RoutingModel for this model (num_locations
nodes, node 0 the single depot, num_vehicles vehicles, all nodes mandatory):
any assignment it returns has one route per vehicle and visits every
non-depot node 1 .. num_locations - 1 exactly once across all routes. -/
def Valid (num_locations num_vehicles : ℕ) (s : VrpSolution) : Prop :=
  s.routes.length = num_vehicles ∧
  s.routes.flatten.Perm (List.range' 1 (num_locations - 1))

/-- Transit cost of a node path (sum of arc costs along consecutive nodes). -/
def pathCost (cost : ℕ → ℕ → ℤ) : List ℕ → ℤ
  | [] => 0
  | [_] => 0
  | a :: b :: rest => cost a b + pathCost cost (b :: rest)

/-- Sum over all vehicles of the transit costs of the arcs actually
traversed: each vehicle drives depot, its nodes in order, depot. -/
def transitCostSum (cost : ℕ → ℕ → ℤ) (routes : List (List ℕ)) : ℤ :=
  (routes.map (fun r => pathCost cost (0 :: r ++ [0]))).sum

/-- Number of vehicles actually used (non-empty route), the ones OR-Tools
charges the fixed cost for. -/
def usedVehicles (routes : List (List ℕ)) : ℕ :=
  (routes.filter (fun r => !r.isEmpty)).length

/-- solution.ObjectiveValue(): traversed arc costs plus the fixed cost 1000
(SetFixedCostOfAllVehicles(1000)) of every vehicle actually used. -/
def objectiveValue (cost : ℕ → ℕ → ℤ) (routes : List (List ℕ)) : ℤ :=
  transitCostSum cost routes + 1000 * usedVehicles routes

/-- Round a rational to the nearest integer, ties to even (Python round). -/
def roundHalfToEven (q : ℚ) : ℤ :=
  if Int.fract q < 1 / 2 then ⌊q⌋
  else if 1 / 2 < Int.fract q then ⌊q⌋ + 1
  else if ⌊q⌋ % 2 = 0 then ⌊q⌋ else ⌊q⌋ + 1

/-- Python round(x, 2): round to two decimal places, ties to even. -/
def pyRound2 (q : ℚ) : ℚ := (roundHalfToEven (q * 100) : ℚ) / 100

/-- The per-vehicle loop body that extracts one route for the map: the
coordinates of the nodes from the vehicle start until (excluding) the end
sentinel, followed by the appended start_point. -/
def extract_route (locations : List Loc) (start_point : Loc) (r : List ℕ) : List Loc :=
  (0 :: r).map (fun n => locations.getD n start_point) ++ [start_point]

/-- total_stop_time: 60 minutes per visited shelter, counted per route as
len(route) - 2 (start and return excluded), summed over vehicles. -/
def total_stop_time (route_data : List (List Loc)) : ℕ :=
  (route_data.map (fun route => (route.length - 2) * 60)).sum

/-- The pieces of st.session_state that solve_vrp writes. -/
structure SessionState where
  route_data : List (List Loc)
  route_distance : Option ℚ
  route_time : Option ℚ
deriving DecidableEq

/-- Session state right after initialisation: no routes, no metrics. -/
def initState : SessionState :=
  { route_data := [], route_distance := none, route_time := none }

/-- Result of one call to solve_vrp: the new session state, and whether the
st.warning banner (the empty-selection signal) was emitted. -/
structure SolveResult where
  state : SessionState
  warned : Bool
deriving DecidableEq

/-- solve_vrp(start_point, shelters, num_vehicles) from src/main.py.
The external solver call routing.SolveWithParameters is the parameter
solverResult: none models a falsy solution (the if-solution branch is
skipped), some s models a returned assignment s. -/
noncomputable def solve_vrp (start_point : Loc) (shelters : List Loc)
    (num_vehicles : ℕ) (solverResult : Option VrpSolution)
    (st : SessionState) : SolveResult :=
  if shelters.isEmpty then
    { state := st, warned := true }
  else
    match solverResult with
    | none => { state := st, warned := false }
    | some solution =>
      let locations : List Loc := start_point :: shelters
      let total_distance : ℚ :=
        (objectiveValue (distance_matrix locations) solution.routes : ℚ) / 1000
      let route_data : List (List Loc) :=
        (List.range num_vehicles).map
          (fun vehicle_id => extract_route locations start_point
            (solution.routes.getD vehicle_id []))
      let travel_time : ℚ := pyRound2 (total_distance / 0.667)
      { state :=
          { route_data := route_data,
            route_distance := some total_distance,
            route_time := some (travel_time + (total_stop_time route_data : ℚ)) },
        warned := false }

/-! ## General lemmas about the embedding -/

theorem sqDist_comm (a b : Loc) : sqDist a b = sqDist b a := by
  simp only [sqDist]; ring

theorem point_distance_comm (a b : Loc) : point_distance a b = point_distance b a := by
  simp only [point_distance, sqDist_comm]

theorem point_distance_nonneg (a b : Loc) : 0 ≤ point_distance a b :=
  Real.sqrt_nonneg _

/-! ## Claim theorems -/

/-- C4: with an empty destination set, solve_vrp emits the warning banner
(the explicit empty-input signal) and returns the prior state untouched,
whatever the solver parameter is — so it fails fast before any search. -/
theorem C4_empty_input_warns (start_point : Loc) (num_vehicles : ℕ)
    (solverResult : Option VrpSolution) (st : SessionState) :
    solve_vrp start_point [] num_vehicles solverResult st =
      { state := st, warned := true } := rfl

/-- C10: a failed solve (empty destination set, or the solver returned no
solution) leaves the stored route list, total distance and total time
exactly as they were before the call. -/
theorem C10_failed_solve_preserves_state (start_point : Loc) (shelters : List Loc)
    (num_vehicles : ℕ) (solverResult : Option VrpSolution) (st : SessionState)
    (h : shelters = [] ∨ solverResult = none) :
    (solve_vrp start_point shelters num_vehicles solverResult st).state = st := by
  rcases h with h | h
  · subst h; rfl
  · subst h
    by_cases he : shelters.isEmpty <;> simp [solve_vrp, he]

/-- Witness for C10 at a concrete input: one destination, solver returns
no solution; the initial state is preserved. -/
theorem C10_witness :
    ([((0 : ℚ), (1 : ℚ))] = ([] : List Loc) ∨ (none : Option VrpSolution) = none) ∧
    (solve_vrp ((0 : ℚ), (0 : ℚ)) [((0 : ℚ), (1 : ℚ))] 3 none initState).state = initState :=
  ⟨Or.inr rfl, C10_failed_solve_preserves_state _ _ _ _ _ (Or.inr rfl)⟩

/-- C7 counterexample: when the solver produces no solution, solve_vrp
reports nothing at all — no warning is emitted and the state is returned
unchanged, indistinguishable from not having run; no hard failure is
surfaced to the caller, contrary to the claim. -/
theorem C7_counterexample :
    solve_vrp ((0 : ℚ), (0 : ℚ)) [((0 : ℚ), (1 : ℚ))] 1 none initState =
      { state := initState, warned := false } := by
  simp [solve_vrp]

/-- C7 amended: when the solver returns no solution on a non-empty
destination set, solve_vrp returns silently — no warning banner, state
unchanged; the case is distinguishable from the empty-destination case only
by the absence of the warning. -/
theorem C7_no_solution_silent (start_point : Loc) (shelters : List Loc)
    (num_vehicles : ℕ) (st : SessionState) (hne : shelters ≠ []) :
    solve_vrp start_point shelters num_vehicles none st =
      { state := st, warned := false } := by
  simp [solve_vrp, List.isEmpty_iff, hne]

/-- Witness for C7 amended at a concrete input. -/
theorem C7_witness :
    [((0 : ℚ), (1 : ℚ))] ≠ ([] : List Loc) ∧
    solve_vrp ((0 : ℚ), (0 : ℚ)) [((0 : ℚ), (1 : ℚ))] 2 none initState =
      { state := initState, warned := false } :=
  ⟨by decide, C7_no_solution_silent _ _ _ _ (by decide)⟩

/-- C8: the distance matrix has a zero diagonal, is symmetric, and every
entry is a non-negative integer. -/
theorem C8_matrix_props (locations : List Loc) (i j : ℕ)
    (hi : i < locations.length) (hj : j < locations.length) :
    distance_matrix locations i i = 0 ∧
    distance_matrix locations i j = distance_matrix locations j i ∧
    0 ≤ distance_matrix locations i j := by
  refine ⟨by simp [distance_matrix], ?_, ?_⟩
  · by_cases hij : i = j
    · subst hij; rfl
    · simp only [distance_matrix, if_neg hij, if_neg (Ne.symm hij)]
      rw [point_distance_comm]
  · by_cases hij : i = j
    · simp [distance_matrix, hij]
    · simp only [distance_matrix, if_neg hij]
      exact Int.floor_nonneg.mpr
        (mul_nonneg (point_distance_nonneg _ _) (by norm_num))

/-- Witness for C8 at a concrete two-location set. -/
theorem C8_witness :
    ((0 : ℕ) < 2 ∧ (1 : ℕ) < 2) ∧
    (distance_matrix [((0 : ℚ), (0 : ℚ)), ((3 : ℚ), (4 : ℚ))] 0 0 = 0 ∧
     distance_matrix [((0 : ℚ), (0 : ℚ)), ((3 : ℚ), (4 : ℚ))] 0 1 =
       distance_matrix [((0 : ℚ), (0 : ℚ)), ((3 : ℚ), (4 : ℚ))] 1 0 ∧
     0 ≤ distance_matrix [((0 : ℚ), (0 : ℚ)), ((3 : ℚ), (4 : ℚ))] 0 1) :=
  ⟨⟨by decide, by decide⟩,
   C8_matrix_props [((0 : ℚ), (0 : ℚ)), ((3 : ℚ), (4 : ℚ))] 0 1 (by decide) (by decide)⟩

theorem map_getD_range {α β : Type} (l : List α) (d : α) (f : α → β) :
    (List.range l.length).map (fun i => f (l.getD i d)) = l.map f := by
  induction l with
  | nil => rfl
  | cons a t ih =>
      rw [List.length_cons, List.range_succ_eq_map, List.map_cons, List.map_map]
      refine congrArg₂ List.cons rfl ?_
      rw [show ((fun i => f ((a :: t).getD i d)) ∘ Nat.succ)
            = fun i => f (t.getD i d) from funext fun i => by
          simp [Function.comp, List.getD_cons_succ]]
      exact ih

theorem solve_vrp_some_eq (start_point : Loc) (shelters : List Loc)
    (num_vehicles : ℕ) (sol : VrpSolution) (st : SessionState)
    (hne : shelters ≠ []) :
    solve_vrp start_point shelters num_vehicles (some sol) st =
      { state :=
          { route_data := (List.range num_vehicles).map
              (fun v => extract_route (start_point :: shelters) start_point
                (sol.routes.getD v [])),
            route_distance := some
              ((objectiveValue (distance_matrix (start_point :: shelters))
                  sol.routes : ℚ) / 1000),
            route_time := some
              (pyRound2 (((objectiveValue (distance_matrix (start_point :: shelters))
                    sol.routes : ℚ) / 1000) / 0.667) +
                (total_stop_time ((List.range num_vehicles).map
                  (fun v => extract_route (start_point :: shelters) start_point
                    (sol.routes.getD v []))) : ℚ)) },
        warned := false } := by
  have he : shelters.isEmpty = false := by simp [List.isEmpty_iff, hne]
  simp [solve_vrp, he]

theorem route_data_of_valid (start_point : Loc) (shelters : List Loc)
    (num_vehicles : ℕ) (sol : VrpSolution)
    (hlen : sol.routes.length = num_vehicles) :
    (List.range num_vehicles).map
        (fun v => extract_route (start_point :: shelters) start_point
          (sol.routes.getD v [])) =
      sol.routes.map (extract_route (start_point :: shelters) start_point) := by
  rw [← hlen, map_getD_range]

/-- C6: the reported total time is round(totalDistance / 0.667, 2) plus 60
minutes per destination visit, the visit count taken per route as its
length minus 2 (excluding the depot at both ends). -/
theorem C6_total_time (start_point : Loc) (shelters : List Loc)
    (num_vehicles : ℕ) (sol : VrpSolution) (st : SessionState)
    (hne : shelters ≠ []) :
    ∃ td : ℚ,
      (solve_vrp start_point shelters num_vehicles (some sol) st).state.route_distance
        = some td ∧
      (solve_vrp start_point shelters num_vehicles (some sol) st).state.route_time
        = some (pyRound2 (td / 0.667) +
            (total_stop_time
              (solve_vrp start_point shelters num_vehicles (some sol) st).state.route_data : ℚ)) := by
  rw [solve_vrp_some_eq start_point shelters num_vehicles sol st hne]
  exact ⟨_, rfl, rfl⟩

/-- Witness for C6 at a concrete input. -/
theorem C6_witness :
    [((0 : ℚ), (1 : ℚ))] ≠ ([] : List Loc) ∧
    (∃ td : ℚ,
      (solve_vrp ((0 : ℚ), (0 : ℚ)) [((0 : ℚ), (1 : ℚ))] 1 (some ⟨[[1]]⟩) initState).state.route_distance
        = some td ∧
      (solve_vrp ((0 : ℚ), (0 : ℚ)) [((0 : ℚ), (1 : ℚ))] 1 (some ⟨[[1]]⟩) initState).state.route_time
        = some (pyRound2 (td / 0.667) +
            (total_stop_time
              (solve_vrp ((0 : ℚ), (0 : ℚ)) [((0 : ℚ), (1 : ℚ))] 1 (some ⟨[[1]]⟩) initState).state.route_data : ℚ))) :=
  ⟨by decide, C6_total_time _ _ _ _ _ (by decide)⟩

theorem floor_real_100000 : ⌊(100000 : ℝ)⌋ = 100000 := by
  rw [show (100000 : ℝ) = ((100000 : ℤ) : ℝ) by norm_num, Int.floor_intCast]

theorem distance_matrix_simple_01 :
    distance_matrix [((0 : ℚ), (0 : ℚ)), ((0 : ℚ), (1 : ℚ))] 0 1 = 100000 := by
  rw [distance_matrix, if_neg (by decide)]
  rw [List.getD_cons_zero, List.getD_cons_succ, List.getD_cons_zero]
  rw [point_distance, show sqDist ((0 : ℚ), (0 : ℚ)) ((0 : ℚ), (1 : ℚ)) = 1 by
    norm_num [sqDist]]
  rw [Rat.cast_one, Real.sqrt_one, one_mul]
  exact floor_real_100000

theorem distance_matrix_simple_10 :
    distance_matrix [((0 : ℚ), (0 : ℚ)), ((0 : ℚ), (1 : ℚ))] 1 0 = 100000 := by
  rw [distance_matrix, if_neg (by decide)]
  rw [List.getD_cons_zero, List.getD_cons_succ, List.getD_cons_zero]
  rw [point_distance, show sqDist ((0 : ℚ), (1 : ℚ)) ((0 : ℚ), (0 : ℚ)) = 1 by
    norm_num [sqDist]]
  rw [Rat.cast_one, Real.sqrt_one, one_mul]
  exact floor_real_100000

theorem transit_simple :
    transitCostSum (distance_matrix [((0 : ℚ), (0 : ℚ)), ((0 : ℚ), (1 : ℚ))]) [[1]]
      = 200000 := by
  simp only [transitCostSum, List.map_cons, List.map_nil, List.sum_cons,
    List.sum_nil, List.cons_append, List.nil_append, pathCost, add_zero]
  rw [distance_matrix_simple_01, distance_matrix_simple_10]
  norm_num

/-- C1 counterexample: for depot (0,0), one destination (0,1), one vehicle,
the unique feasible assignment traverses edges of total transit cost 200000,
so the claim predicts 200000 / 1000 = 200; but the reported totalDistance is
ObjectiveValue / 1000 = 201, because ObjectiveValue also contains the fixed
dispatch cost 1000 of the one used vehicle. -/
theorem C1_counterexample :
    Valid 2 1 ⟨[[1]]⟩ ∧
    (solve_vrp ((0 : ℚ), (0 : ℚ)) [((0 : ℚ), (1 : ℚ))] 1
        (some ⟨[[1]]⟩) initState).state.route_distance = some 201 ∧
    (transitCostSum (distance_matrix [((0 : ℚ), (0 : ℚ)), ((0 : ℚ), (1 : ℚ))])
        [[1]] : ℚ) / 1000 = 200 ∧
    (201 : ℚ) ≠ 200 := by
  refine ⟨⟨rfl, by decide⟩, ?_, ?_, by norm_num⟩
  · rw [solve_vrp_some_eq _ _ _ _ _ (by decide)]
    simp only [objectiveValue, transit_simple, usedVehicles]
    norm_num
  · rw [transit_simple]; norm_num

/-- C1 amended: the reported totalDistance is (sum of the transit costs of
all traversed edges) / 1000 plus one unit per vehicle actually used — the
per-vehicle fixed dispatch cost 1000 is part of the reported value, since
the code divides ObjectiveValue, not the bare transit sum, by 1000. -/
theorem C1_total_distance (start_point : Loc) (shelters : List Loc)
    (num_vehicles : ℕ) (sol : VrpSolution) (st : SessionState)
    (hne : shelters ≠ [])
    (hv : Valid (shelters.length + 1) num_vehicles sol) :
    (solve_vrp start_point shelters num_vehicles (some sol) st).state.route_distance
      = some ((transitCostSum (distance_matrix (start_point :: shelters))
            sol.routes : ℚ) / 1000 + (usedVehicles sol.routes : ℚ)) := by
  rw [solve_vrp_some_eq _ _ _ _ _ hne]
  simp only [objectiveValue]
  push_cast
  ring_nf

/-- Witness for C1 amended at a concrete input. -/
theorem C1_witness :
    ([((0 : ℚ), (1 : ℚ))] ≠ ([] : List Loc) ∧ Valid 2 1 ⟨[[1]]⟩) ∧
    (solve_vrp ((0 : ℚ), (0 : ℚ)) [((0 : ℚ), (1 : ℚ))] 1
        (some ⟨[[1]]⟩) initState).state.route_distance
      = some ((transitCostSum (distance_matrix (((0 : ℚ), (0 : ℚ)) :: [((0 : ℚ), (1 : ℚ))]))
            (VrpSolution.routes ⟨[[1]]⟩) : ℚ) / 1000
          + (usedVehicles (VrpSolution.routes ⟨[[1]]⟩) : ℚ)) :=
  ⟨⟨by decide, ⟨rfl, by decide⟩⟩,
   C1_total_distance _ _ _ _ _ (by decide) ⟨rfl, by decide⟩⟩

theorem valid_two_one_unique (sol : VrpSolution) (hv : Valid 2 1 sol) :
    sol.routes = [[1]] := by
  obtain ⟨hlen, hperm⟩ := hv
  obtain ⟨r, hr⟩ := List.length_eq_one.mp hlen
  rw [hr] at hperm ⊢
  simp only [List.flatten_cons, List.flatten_nil, List.append_nil] at hperm
  have : r = [1] := by
    have h1 : List.range' 1 (2 - 1) = [1] := rfl
    rw [h1] at hperm
    exact List.perm_singleton.mp hperm
  rw [this]

/-- C9: for depot (0,0), single destination (0,1) and one vehicle, any
feasible assignment yields exactly the route [(0,0), (0,1), (0,0)], one
counted stop, and 60 minutes of service time. -/
theorem C9_single_destination (sol : VrpSolution) (st : SessionState)
    (hv : Valid 2 1 sol) :
    (solve_vrp ((0 : ℚ), (0 : ℚ)) [((0 : ℚ), (1 : ℚ))] 1 (some sol) st).state.route_data
        = [[((0 : ℚ), (0 : ℚ)), ((0 : ℚ), (1 : ℚ)), ((0 : ℚ), (0 : ℚ))]] ∧
    (((solve_vrp ((0 : ℚ), (0 : ℚ)) [((0 : ℚ), (1 : ℚ))] 1 (some sol) st).state.route_data).map
        (fun route => route.length - 2)).sum = 1 ∧
    total_stop_time
        (solve_vrp ((0 : ℚ), (0 : ℚ)) [((0 : ℚ), (1 : ℚ))] 1 (some sol) st).state.route_data
      = 60 := by
  have h := valid_two_one_unique sol hv
  obtain ⟨routes⟩ := sol
  simp only at h
  subst h
  rw [solve_vrp_some_eq _ _ _ _ _ (by decide)]
  refine ⟨?_, ?_, ?_⟩ <;> decide

/-- C2: for every solve that produces a Solution, each requested destination
index 1 .. N (N the number of selected shelters) appears across the vehicle
routes with total multiplicity exactly one, and no other index appears. -/
theorem C2_each_destination_once (start_point : Loc) (shelters : List Loc)
    (num_vehicles : ℕ) (sol : VrpSolution) (st : SessionState)
    (hne : shelters ≠ [])
    (hv : Valid (shelters.length + 1) num_vehicles sol) :
    ∀ d : ℕ, (sol.routes.map (fun r => r.count d)).sum =
      if 1 ≤ d ∧ d ≤ shelters.length then 1 else 0 := by
  intro d
  obtain ⟨-, hperm⟩ := hv
  rw [← List.count_flatten, hperm.count_eq]
  simp only [Nat.add_sub_cancel] at *
  by_cases hd : 1 ≤ d ∧ d ≤ shelters.length
  · rw [if_pos hd]
    exact List.count_eq_one_of_mem (List.nodup_range' 1 shelters.length)
      (List.mem_range'_1.mpr ⟨hd.1, by omega⟩)
  · rw [if_neg hd]
    refine List.count_eq_zero_of_not_mem (fun hmem => hd ?_)
    obtain ⟨h1, h2⟩ := List.mem_range'_1.mp hmem
    exact ⟨h1, by omega⟩

/-- Witness for C2 at a concrete input. -/
theorem C2_witness :
    ([((0 : ℚ), (1 : ℚ))] ≠ ([] : List Loc) ∧ Valid 2 1 ⟨[[1]]⟩) ∧
    ∀ d : ℕ, ((VrpSolution.routes ⟨[[1]]⟩).map (fun r => r.count d)).sum =
      if 1 ≤ d ∧ d ≤ [((0 : ℚ), (1 : ℚ))].length then 1 else 0 :=
  ⟨⟨by decide, ⟨rfl, by decide⟩⟩,
   C2_each_destination_once ((0 : ℚ), (0 : ℚ)) [((0 : ℚ), (1 : ℚ))] 1 ⟨[[1]]⟩
     initState (by decide) ⟨rfl, by decide⟩⟩

theorem extract_route_head (shelters : List Loc) (s : Loc) (r : List ℕ) :
    (extract_route (s :: shelters) s r).head? = some s := by
  simp [extract_route]

theorem extract_route_getLast (locs : List Loc) (s : Loc) (r : List ℕ) :
    (extract_route locs s r).getLast? = some s :=
  List.getLast?_concat _

theorem extract_route_nil (shelters : List Loc) (s : Loc) :
    extract_route (s :: shelters) s [] = [s, s] := by
  simp [extract_route]

/-- C3: every extracted route begins and ends with the depot coordinate,
and a vehicle whose assignment is empty gets exactly the depot twice. -/
theorem C3_routes_start_end_depot (start_point : Loc) (shelters : List Loc)
    (num_vehicles : ℕ) (sol : VrpSolution) (st : SessionState)
    (hne : shelters ≠ [])
    (hv : Valid (shelters.length + 1) num_vehicles sol) :
    (∀ route ∈ (solve_vrp start_point shelters num_vehicles (some sol) st).state.route_data,
        route.head? = some start_point ∧ route.getLast? = some start_point) ∧
    (∀ v : ℕ, v < num_vehicles → sol.routes.getD v [] = [] →
        ((solve_vrp start_point shelters num_vehicles (some sol) st).state.route_data).getD v []
          = [start_point, start_point]) := by
  rw [solve_vrp_some_eq _ _ _ _ _ hne]
  constructor
  · intro route hroute
    simp only [List.mem_map] at hroute
    obtain ⟨v, -, rfl⟩ := hroute
    exact ⟨extract_route_head _ _ _, extract_route_getLast _ _ _⟩
  · intro v hvlt hempty
    simp only [List.getD_eq_getElem?_getD] at hempty
    simp only [List.getD_eq_getElem?_getD, List.getElem?_map, List.getElem?_range,
      hvlt, if_pos, Option.map_some', Option.getD_some]
    rw [hempty, extract_route_nil]

/-- Witness for C3 at a concrete input with an unused vehicle: one
destination, two vehicles, the second vehicle idle. -/
theorem C3_witness :
    ([((0 : ℚ), (1 : ℚ))] ≠ ([] : List Loc) ∧ Valid 2 2 ⟨[[1], []]⟩) ∧
    ((∀ route ∈ (solve_vrp ((0 : ℚ), (0 : ℚ)) [((0 : ℚ), (1 : ℚ))] 2
          (some ⟨[[1], []]⟩) initState).state.route_data,
        route.head? = some ((0 : ℚ), (0 : ℚ)) ∧
        route.getLast? = some ((0 : ℚ), (0 : ℚ))) ∧
      (∀ v : ℕ, v < 2 → (VrpSolution.routes ⟨[[1], []]⟩).getD v [] = [] →
        ((solve_vrp ((0 : ℚ), (0 : ℚ)) [((0 : ℚ), (1 : ℚ))] 2
            (some ⟨[[1], []]⟩) initState).state.route_data).getD v []
          = [((0 : ℚ), (0 : ℚ)), ((0 : ℚ), (0 : ℚ))])) :=
  ⟨⟨by decide, ⟨rfl, by decide⟩⟩,
   C3_routes_start_end_depot ((0 : ℚ), (0 : ℚ)) [((0 : ℚ), (1 : ℚ))] 2 ⟨[[1], []]⟩
     initState (by decide) ⟨rfl, by decide⟩⟩

theorem usedVehicles_le_flatten_length (routes : List (List ℕ)) :
    usedVehicles routes ≤ routes.flatten.length := by
  induction routes with
  | nil => simp [usedVehicles]
  | cons r rs ih =>
      cases r with
      | nil => simpa [usedVehicles, List.filter_cons] using ih
      | cons a t =>
          have h1 : usedVehicles ((a :: t) :: rs) = usedVehicles rs + 1 := by
            simp [usedVehicles, List.filter_cons]
          rw [h1, List.flatten_cons, List.length_append, List.length_cons]
          omega

theorem count_nil_add_used (routes : List (List ℕ)) :
    (routes.filter (fun r => r = [])).length + usedVehicles routes
      = routes.length := by
  induction routes with
  | nil => rfl
  | cons r rs ih =>
      cases r with
      | nil =>
          simp only [usedVehicles, List.filter_cons] at ih ⊢
          simp at ih ⊢
          omega
      | cons a t =>
          simp only [usedVehicles, List.filter_cons] at ih ⊢
          simp at ih ⊢
          omega

theorem extract_eq_pair_iff (shelters : List Loc) (s : Loc) (r : List ℕ) :
    extract_route (s :: shelters) s r = [s, s] ↔ r = [] := by
  constructor
  · intro h
    have hlen := congrArg List.length h
    simp [extract_route] at hlen
    exact hlen
  · intro h
    rw [h, extract_route_nil]

/-- C5 counterexample: depot (0,0), three destinations, five vehicles. The
cost-optimal feasible assignment serves all three destinations with a single
vehicle (one tour is cheaper in transit cost by the triangle inequality and
incurs one fixed dispatch cost instead of three), so four vehicles — not
exactly 5 - 3 = 2 — end with trivial depot-only routes. -/
theorem C5_counterexample :
    Valid 4 5 ⟨[[1, 3, 2], [], [], [], []]⟩ ∧
    (((solve_vrp ((0 : ℚ), (0 : ℚ))
          [((0 : ℚ), (1 : ℚ)), ((1 : ℚ), (0 : ℚ)), ((1 : ℚ), (1 : ℚ))] 5
          (some ⟨[[1, 3, 2], [], [], [], []]⟩) initState).state.route_data).filter
        (fun route => route = [((0 : ℚ), (0 : ℚ)), ((0 : ℚ), (0 : ℚ))])).length = 4 ∧
    (4 : ℕ) ≠ 5 - 3 :=
  ⟨⟨rfl, by decide⟩, by decide, by decide⟩

/-- C5 amended: when the solve succeeds, at least num_vehicles - N vehicles
(N the number of destinations) receive trivial depot-only routes; the count
is exactly num_vehicles - N only if every used vehicle serves exactly one
destination, which cost minimisation does not guarantee. -/
theorem C5_trivial_routes_lower_bound (start_point : Loc) (shelters : List Loc)
    (num_vehicles : ℕ) (sol : VrpSolution) (st : SessionState)
    (hne : shelters ≠ [])
    (hv : Valid (shelters.length + 1) num_vehicles sol) :
    num_vehicles - shelters.length ≤
      (((solve_vrp start_point shelters num_vehicles (some sol) st).state.route_data).filter
        (fun route => route = [start_point, start_point])).length := by
  rw [solve_vrp_some_eq _ _ _ _ _ hne]
  obtain ⟨hlen, hperm⟩ := hv
  rw [route_data_of_valid _ _ _ _ hlen]
  rw [List.filter_map, List.length_map]
  simp only [Function.comp_def]
  rw [List.filter_congr (fun r _ => decide_eq_decide.mpr
    (extract_eq_pair_iff shelters start_point r))]
  have hN : sol.routes.flatten.length = shelters.length := by
    rw [hperm.length_eq, List.length_range', Nat.add_sub_cancel]
  have h1 := count_nil_add_used sol.routes
  have h2 := usedVehicles_le_flatten_length sol.routes
  omega

/-- Witness for C5 amended at the concrete five-vehicle instance. -/
theorem C5_witness :
    ([((0 : ℚ), (1 : ℚ)), ((1 : ℚ), (0 : ℚ)), ((1 : ℚ), (1 : ℚ))] ≠ ([] : List Loc) ∧
      Valid 4 5 ⟨[[1, 3, 2], [], [], [], []]⟩) ∧
    5 - [((0 : ℚ), (1 : ℚ)), ((1 : ℚ), (0 : ℚ)), ((1 : ℚ), (1 : ℚ))].length ≤
      (((solve_vrp ((0 : ℚ), (0 : ℚ))
            [((0 : ℚ), (1 : ℚ)), ((1 : ℚ), (0 : ℚ)), ((1 : ℚ), (1 : ℚ))] 5
            (some ⟨[[1, 3, 2], [], [], [], []]⟩) initState).state.route_data).filter
        (fun route => route = [((0 : ℚ), (0 : ℚ)), ((0 : ℚ), (0 : ℚ))])).length :=
  ⟨⟨by decide, ⟨rfl, by decide⟩⟩,
   C5_trivial_routes_lower_bound ((0 : ℚ), (0 : ℚ))
     [((0 : ℚ), (1 : ℚ)), ((1 : ℚ), (0 : ℚ)), ((1 : ℚ), (1 : ℚ))] 5
     ⟨[[1, 3, 2], [], [], [], []]⟩ initState (by decide) ⟨rfl, by decide⟩⟩

/-- Witness for C9: the unique feasible assignment for that instance. -/
theorem C9_witness :
    Valid 2 1 ⟨[[1]]⟩ ∧
    ((solve_vrp ((0 : ℚ), (0 : ℚ)) [((0 : ℚ), (1 : ℚ))] 1
          (some ⟨[[1]]⟩) initState).state.route_data
        = [[((0 : ℚ), (0 : ℚ)), ((0 : ℚ), (1 : ℚ)), ((0 : ℚ), (0 : ℚ))]] ∧
      (((solve_vrp ((0 : ℚ), (0 : ℚ)) [((0 : ℚ), (1 : ℚ))] 1
            (some ⟨[[1]]⟩) initState).state.route_data).map
          (fun route => route.length - 2)).sum = 1 ∧
      total_stop_time
          (solve_vrp ((0 : ℚ), (0 : ℚ)) [((0 : ℚ), (1 : ℚ))] 1
            (some ⟨[[1]]⟩) initState).state.route_data
        = 60) :=
  ⟨⟨rfl, by decide⟩, C9_single_destination _ _ ⟨rfl, by decide⟩⟩
